import Mathlib

/-!
Shallow embedding of the scheduling core of the `base-boss` repository
(an umpire-assignment platform): game rows and their lifecycle, the
double-booking conflict detector, the distance filter over open games,
the rating ledger (with the PostgreSQL constraints and row-level-security
policies from the migrations), the two reconciliation dialogs, and the
bulk-import row validator.

Numeric conventions: timestamps are integer milliseconds (JavaScript
`Date.getTime()`); coordinates and distances are rationals.  The
haversine `calculateDistance` of the source is floating-point
trigonometry, so the functions that call it take the distance function as
an explicit parameter `dist`; each theorem fixes the geometry through
that parameter (for example `dist … = 30`, or the constant `0` for two
games at the same venue, which is the haversine value of an equal
coordinate pair).
-/

namespace BaseBoss

/-- Game status enum from migration 20251118032938 (`game_status`). -/
inductive GameStatus where
  | pending
  | assigned
  | completed
  | cancelled
deriving DecidableEq, Repr

/-- Request status enum from migration 20251118032938 (`request_status`). -/
inductive RequestStatus where
  | pending
  | accepted
  | rejected
deriving DecidableEq, Repr

/-- A row of `public.games`.  `latitude`/`longitude` were added by a later
migration and are nullable; JavaScript reads them as `number | null`. -/
structure Game where
  id : String
  coach_id : String
  game_date : ℤ
  location : String
  opponent : String
  status : GameStatus
  assigned_umpire_id : Option String
  latitude : Option ℚ
  longitude : Option ℚ
deriving DecidableEq, Repr

/-- A row of `public.ratings`. -/
structure RatingRow where
  id : String
  game_id : String
  coach_id : String
  umpire_id : String
  rating : ℤ
  comment : Option String
  created_at : ℤ
deriving DecidableEq, Repr

/-- A row of `public.external_umpire_leads`. -/
structure LeadRow where
  game_id : String
  coach_id : String
  umpire_name : String
  umpire_contact : Option String
  how_found : String
  notes : Option String
deriving DecidableEq, Repr

/-- A row of `public.umpire_requests`. -/
structure RequestRow where
  game_id : String
  coach_id : String
  status : RequestStatus
deriving DecidableEq, Repr

/-- The relational store the dialogs talk to through supabase. -/
structure Store where
  games : List Game
  requests : List RequestRow
  ratings : List RatingRow
  leads : List LeadRow
deriving DecidableEq, Repr

/-- A PostgreSQL error as surfaced by supabase-js (`error.code`): `23505`
is unique-constraint violation, `23514` check-constraint violation,
`42501` a row-level-security violation. -/
structure PgError where
  code : String
deriving DecidableEq, Repr

/-- JavaScript truthiness of a nullable number: `null` and `0` are falsy.
UmpireDashboard guards coordinates with bare truthiness tests
(`gameLat && gameLng && …`, `!userLat || …`), so a coordinate that is
exactly 0 behaves like an absent one. -/
def jsTruthy : Option ℚ → Bool
  | none => false
  | some q => q != 0

/-- `const twoHours = 2 * 60 * 60 * 1000` from `checkDoubleBooking`. -/
def twoHours : ℤ := 2 * 60 * 60 * 1000

/-- The required gap computed inside `checkDoubleBooking`:
`travelTimeMinutes = (distance / 30) * 60` (30 miles per hour assumed)
and `requiredBuffer = (travelTimeMinutes + 60) * 60 * 1000` (one hour of
safety buffer), in milliseconds. -/
def requiredBuffer (distance : ℚ) : ℚ :=
  ((distance / 30) * 60 + 60) * 60 * 1000

/-- One iteration of the `for (const game of myGames)` loop body of
`checkDoubleBooking` (UmpireDashboard): games closer than two hours are
conflicting unless both carry truthy coordinates and the time gap beats
the travel-time-plus-buffer requirement; a pair two or more hours apart
never conflicts. -/
def conflictsWith (dist : ℚ → ℚ → ℚ → ℚ → ℚ) (newGameTime : ℤ)
    (gameLat gameLng : Option ℚ) (g : Game) : Bool :=
  let timeDiff : ℤ := ((newGameTime - g.game_date).natAbs : ℤ)
  if timeDiff < twoHours then
    if jsTruthy gameLat && jsTruthy gameLng
        && jsTruthy g.latitude && jsTruthy g.longitude then
      let distance := dist (gameLat.getD 0) (gameLng.getD 0)
        (g.latitude.getD 0) (g.longitude.getD 0)
      decide ((timeDiff : ℚ) < requiredBuffer distance)
    else
      true
  else
    false

/-- `checkDoubleBooking(gameDate, gameLat, gameLng)` of UmpireDashboard:
true when any of the umpire's games conflicts with the candidate.  The
source's early `return true` inside the loop is `List.any`. -/
def checkDoubleBooking (dist : ℚ → ℚ → ℚ → ℚ → ℚ) (newGameTime : ℤ)
    (gameLat gameLng : Option ℚ) (myGames : List Game) : Bool :=
  myGames.any (conflictsWith dist newGameTime gameLat gameLng)

/-- `filteredGames` of UmpireDashboard: the distance filter over available
games.  A game is kept unconditionally when the umpire's home coordinates
or the game's coordinates are not truthy (`!userLat || !userLng ||
!game.latitude || !game.longitude`), otherwise kept iff the distance is
within `maxDistance`. -/
def filteredGames (dist : ℚ → ℚ → ℚ → ℚ → ℚ) (userLat userLng : Option ℚ)
    (maxDistance : ℚ) (availableGames : List Game) : List Game :=
  availableGames.filter fun game =>
    if jsTruthy userLat && jsTruthy userLng
        && jsTruthy game.latitude && jsTruthy game.longitude then
      decide (dist (userLat.getD 0) (userLng.getD 0)
        (game.latitude.getD 0) (game.longitude.getD 0) ≤ maxDistance)
    else
      true

/-- The `USING` clause of RLS policy "Umpires can accept unassigned games"
(migration 20251125045051): the row is updatable by an umpire only while
`assigned_umpire_id IS NULL AND status = 'pending'`.  (The role check
`has_role(auth.uid(), 'umpire')` is carried by the caller being an
umpire.) -/
def acceptGuard (g : Game) : Bool :=
  g.assigned_umpire_id == none && g.status == GameStatus.pending

/-- The store effect of `handleAcceptGame`'s update
`update({ assigned_umpire_id: user.id, status: "assigned" }).eq("id", gameId)`:
only rows passing `acceptGuard` are updated (RLS filters the rest out
silently); the new values always satisfy the policy's `WITH CHECK`
(`assigned_umpire_id = auth.uid() AND status = 'assigned'`), so no error
is ever raised — a zero-row update is not an error for supabase-js. -/
def rlsAcceptUpdate (s : Store) (uid gameId : String) : Store :=
  { s with games := s.games.map fun g =>
      if g.id == gameId && acceptGuard g then
        { g with assigned_umpire_id := some uid, status := GameStatus.assigned }
      else g }

/-- Outcome reported to the umpire by `handleAcceptGame`. -/
inductive AcceptOutcome where
  | conflict
  | success
deriving DecidableEq, Repr

/-- The `myGames` state of UmpireDashboard: games fetched with
`.eq("assigned_umpire_id", user.id)`. -/
def myGamesOf (s : Store) (uid : String) : List Game :=
  s.games.filter fun g => g.assigned_umpire_id == some uid

/-- `handleAcceptGame` of UmpireDashboard: refuse with a conflict toast if
`checkDoubleBooking` fires; otherwise run the RLS-guarded update.  The
games update raises no error (see `rlsAcceptUpdate`), the follow-up
`umpire_requests` update has no UPDATE policy for umpires (its silent
zero-row result is ignored by the source anyway), and then the success
toast is shown — also when the guarded update matched no row. -/
def handleAcceptGame (dist : ℚ → ℚ → ℚ → ℚ → ℚ) (s : Store)
    (uid gameId : String) (gameDate : ℤ) (gameLat gameLng : Option ℚ) :
    Store × AcceptOutcome :=
  if checkDoubleBooking dist gameDate gameLat gameLng (myGamesOf s uid) then
    (s, AcceptOutcome.conflict)
  else
    (rlsAcceptUpdate s uid gameId, AcceptOutcome.success)

/-- A game-status update issued by a coach,
`update({ status }).eq("id", gameId)`, filtered by the RLS policy
"Coaches can update their own games" (`auth.uid() = coach_id`). -/
def coachSetStatus (s : Store) (uid gameId : String) (st : GameStatus) : Store :=
  { s with games := s.games.map fun g =>
      if g.id == gameId && g.coach_id == uid then { g with status := st } else g }

/-- An INSERT into `public.ratings`, as constrained by migration
20251118032938: the RLS `WITH CHECK` of "Coaches can create ratings for
completed games" (inserting coach owns the game and it is `completed`),
the column constraint `CHECK (rating >= 1 AND rating <= 5)`, and
`UNIQUE(game_id, coach_id)`. -/
def insertRating (s : Store) (uid : String) (row : RatingRow) :
    Store × Option PgError :=
  if ¬(uid = row.coach_id ∧ s.games.any fun g =>
      g.id == row.game_id && g.coach_id == uid && g.status == GameStatus.completed) then
    (s, some ⟨"42501"⟩)
  else if ¬(1 ≤ row.rating ∧ row.rating ≤ 5) then
    (s, some ⟨"23514"⟩)
  else if s.ratings.any fun r =>
      r.game_id == row.game_id && r.coach_id == row.coach_id then
    (s, some ⟨"23505"⟩)
  else
    ({ s with ratings := s.ratings ++ [row] }, none)

/-- Outcome surfaced by the rating dialogs. -/
inductive SubmitOutcome where
  | ignored
  | duplicate
  | failure
  | success
deriving DecidableEq, Repr

/-- `handleSubmit` of RateUmpireDialog (insert path): bail out silently
when the game has no assigned umpire or no star was chosen; insert the
rating; error code `23505` yields the "already rated" toast
(`DuplicateRating`), any other error a generic failure. -/
def rateUmpireSubmit (s : Store) (uid gameId : String)
    (assignedUmpire : Option String) (rating : ℤ) (comment : Option String)
    (newId : String) (now : ℤ) : Store × SubmitOutcome :=
  match assignedUmpire with
  | none => (s, SubmitOutcome.ignored)
  | some u =>
    if rating == 0 then (s, SubmitOutcome.ignored)
    else
      match insertRating s uid ⟨newId, gameId, uid, u, rating, comment, now⟩ with
      | (s1, none) => (s1, SubmitOutcome.success)
      | (s1, some e) =>
        if e.code == "23505" then (s1, SubmitOutcome.duplicate)
        else (s1, SubmitOutcome.failure)

/-- Outcome of one step of the assigned-and-lapsed confirm wizard. -/
inductive ConfirmOutcome where
  | ratingRequired
  | success
  | failed (code : String)
deriving DecidableEq, Repr

/-- `handleConfirmAndRate` of PastGamesNotificationDialog: refuse when
neither a no-show nor a star rating was given; otherwise FIRST set the
game's status to `completed`, THEN insert the rating (score 0 when
no-show); a `23505` duplicate on the insert is swallowed, any other
insert error is caught and reported as a failure — after the game has
already been marked completed. -/
def handleConfirmAndRate (s : Store) (uid gameId umpId : String)
    (noShow : Bool) (rating : ℤ) (comment : Option String)
    (newId : String) (now : ℤ) : Store × ConfirmOutcome :=
  if !noShow && rating == 0 then (s, ConfirmOutcome.ratingRequired)
  else
    let finalRating : ℤ := if noShow then 0 else rating
    let s1 := coachSetStatus s uid gameId GameStatus.completed
    match insertRating s1 uid ⟨newId, gameId, uid, umpId, finalRating, comment, now⟩ with
    | (s2, none) => (s2, ConfirmOutcome.success)
    | (s2, some e) =>
      if e.code == "23505" then (s2, ConfirmOutcome.success)
      else (s2, ConfirmOutcome.failed e.code)

/-- Modelled from the spec: the page that opens the pending-and-lapsed
wizard (PastPendingGamesDialog) is not among the source files — only the
dialog itself is.  Per spec §4.6 the wizard is fed games with status
`pending`, never assigned, whose scheduled time has passed, owned by the
requesting coach.  The dialog's own update is `.eq("id", currentGame.id)`
under the coach RLS policy; with `id` a primary key this coincides with
updating exactly the rows matching the feeder's query, which is how the
row filter below is stated. -/
def resolvePastPending (s : Store) (uid gameId : String) (now : ℤ)
    (played : Bool) (lead : LeadRow) : Store :=
  let upd := fun (st : GameStatus) =>
    { s with games := s.games.map fun g =>
        if g.id == gameId && g.coach_id == uid
            && g.status == GameStatus.pending
            && g.assigned_umpire_id == none
            && decide (g.game_date < now) then
          { g with status := st }
        else g }
  if played then
    { upd GameStatus.completed with leads := s.leads ++ [lead] }
  else
    upd GameStatus.cancelled

/-- `handleSubmit` of RequestUmpireDialog (and, per row, of
BulkUploadGamesDialog's submit loop): insert a `pending` game with no
assigned umpire and no coordinates, plus a `pending` umpire request. -/
def createGame (s : Store) (uid newId : String) (date : ℤ)
    (location opponent : String) : Store :=
  { s with
    games := s.games ++ [⟨newId, uid, date, location, opponent,
      GameStatus.pending, none, none, none⟩],
    requests := s.requests ++ [⟨newId, uid, RequestStatus.pending⟩] }

/-- The core operations that mutate game rows, as invoked by the app. -/
inductive CoreOp where
  | create (uid newId : String) (date : ℤ) (location opponent : String)
  | accept (uid gameId : String) (gameDate : ℤ) (gameLat gameLng : Option ℚ)
  | confirmRate (uid gameId umpId : String) (noShow : Bool) (rating : ℤ)
      (comment : Option String) (newId : String) (now : ℤ)
  | resolvePending (uid gameId : String) (now : ℤ) (played : Bool) (lead : LeadRow)

/-- Store effect of a core operation. -/
def applyOp (dist : ℚ → ℚ → ℚ → ℚ → ℚ) (op : CoreOp) (s : Store) : Store :=
  match op with
  | CoreOp.create uid newId date loc opp => createGame s uid newId date loc opp
  | CoreOp.accept uid gameId d la ln => (handleAcceptGame dist s uid gameId d la ln).1
  | CoreOp.confirmRate uid g u ns r c i n => (handleConfirmAndRate s uid g u ns r c i n).1
  | CoreOp.resolvePending uid g now p lead => resolvePastPending s uid g now p lead

/-- The spec's invariant for a game row: the assigned provider is set if
and only if the status is `assigned` or `completed`. -/
def providerIffStatus (g : Game) : Prop :=
  g.assigned_umpire_id ≠ none ↔
    (g.status = GameStatus.assigned ∨ g.status = GameStatus.completed)

/-- The direction of the invariant the code does maintain: a set assigned
provider implies status `assigned` or `completed`. -/
def providerImpliesStatus (g : Game) : Prop :=
  g.assigned_umpire_id ≠ none →
    (g.status = GameStatus.assigned ∨ g.status = GameStatus.completed)

/-- Store-wide form of `providerImpliesStatus`. -/
def storeFwdInv (s : Store) : Prop :=
  ∀ g ∈ s.games, providerImpliesStatus g

instance (g : Game) : Decidable (providerIffStatus g) := by
  unfold providerIffStatus; infer_instance

instance (g : Game) : Decidable (providerImpliesStatus g) := by
  unfold providerImpliesStatus; infer_instance

/-- `canEditRating` of CoachDashboard:
`differenceInHours(new Date(), new Date(rating.created_at)) < 24`.
date-fns `differenceInHours` divides the millisecond difference by
3 600 000 and truncates toward zero, which is `Int.tdiv`. -/
def canEditRating (now createdAt : ℤ) : Bool :=
  Int.tdiv (now - createdAt) 3600000 < 24

/-- The `USING` predicate governing which `ratings` rows an authenticated
coach may UPDATE.  Migration 20251118032938 creates only SELECT policies
and one INSERT policy for `ratings` and no later migration adds an UPDATE
policy, so no row is ever updatable: the predicate is constantly false. -/
def ratingsUpdatePolicyUsing : RatingRow → Bool := fun _ => false

/-- The store effect of RateUmpireDialog's edit path,
`update({ rating, comment }).eq("id", existing_rating.id)`: RLS restricts
the update to rows passing `ratingsUpdatePolicyUsing` (none), and
PostgREST reports no error for an update that matched zero rows. -/
def rlsUpdateRatings (s : Store) (ratingId : String) (newRating : ℤ)
    (newComment : Option String) : Store × Option PgError :=
  ({ s with ratings := s.ratings.map fun r =>
      if r.id == ratingId && ratingsUpdatePolicyUsing r then
        { r with rating := newRating, comment := newComment }
      else r }, none)

/-- Outcome of attempting to edit an existing rating from CoachDashboard. -/
inductive EditOutcome where
  | notEditable
  | reportedSuccess
  | failed (code : String)
deriving DecidableEq, Repr

/-- The coach-side edit flow: CoachDashboard offers the edit pencil only
while `canEditRating` holds (otherwise the rating is shown as read-only
"Rated"); within the window RateUmpireDialog's `handleSubmit` runs the
RLS-filtered update and, seeing no error, shows the
"Rating updated successfully!" toast. -/
def coachEditRating (s : Store) (now : ℤ) (r : RatingRow) (newRating : ℤ)
    (newComment : Option String) : Store × EditOutcome :=
  if canEditRating now r.created_at then
    match rlsUpdateRatings s r.id newRating newComment with
    | (s1, none) => (s1, EditOutcome.reportedSuccess)
    | (s1, some e) => (s1, EditOutcome.failed e.code)
  else
    (s, EditOutcome.notEditable)

/-- A loosely-typed spreadsheet cell as produced by
`XLSX.utils.sheet_to_json`; `undef` is JavaScript `undefined` for an
absent column. -/
inductive Cell where
  | str (s : String)
  | num (q : ℚ)
  | undef
deriving DecidableEq, Repr

/-- JavaScript truthiness of a cell: `undefined`, the empty string and
the number 0 are falsy. -/
def cellTruthy : Cell → Bool
  | Cell.str s => s != ""
  | Cell.num q => q != 0
  | Cell.undef => false

/-- JavaScript `a || b`: `b` when `a` is falsy. -/
def jsOr (a b : Cell) : Cell :=
  if cellTruthy a then a else b

/-- JavaScript `.toString()` on a cell value. -/
def cellToString : Cell → String
  | Cell.str s => s
  | Cell.num q => toString q
  | Cell.undef => "undefined"

/-- JavaScript `String.prototype.trim()`: strip leading and trailing
whitespace (structurally recursive so that concrete rows evaluate). -/
def jsTrim (s : String) : String :=
  String.mk (((s.data.dropWhile Char.isWhitespace).reverse.dropWhile
    Char.isWhitespace).reverse)

/-- A spreadsheet row: column name to cell; a missing key reads as
`undefined`. -/
def Row := List (String × Cell)

/-- Property access `row.key` on a parsed row. -/
def rowGet (row : Row) (key : String) : Cell :=
  match row.find? fun kv => kv.1 == key with
  | some kv => kv.2
  | none => Cell.undef

/-- Zero-padding to two digits, as `String(x).padStart(2, "0")`. -/
def pad2 (n : ℕ) : String :=
  if n < 10 then "0" ++ toString n else toString n

/-- The date parts `XLSX.SSF.parse_date_code` extracts from an Excel
serial number.  The library is an external collaborator, so the theorems
take the parse function as a parameter. -/
structure SSFDate where
  y : ℕ
  m : ℕ
  d : ℕ
  H : ℕ
  M : ℕ
deriving DecidableEq, Repr

/-- What the source reads off a JavaScript `Date` built from a string:
`toISOString().split("T")[0]` and the local-timezone `getHours()` /
`getMinutes()`.  `new Date(string)` is runtime behavior, so the theorems
take the parser as a parameter; a UTC runtime parses a date-only ISO
string to local time 00:00. -/
structure JsDate where
  isoDate : String
  hours : ℕ
  minutes : ℕ
deriving DecidableEq, Repr

/-- `parseExcelDate` of BulkUploadGamesDialog: falsy input is `null`; a
numeric cell goes through the Excel serial-date decoder; a string cell
through `new Date(value)`; both yield a `{ date, time }` pair of
formatted strings, or `null` when parsing fails. -/
def parseExcelDate (jsParse : String → Option JsDate)
    (ssfParse : ℚ → Option SSFDate) (value : Cell) :
    Option (String × String) :=
  if ¬cellTruthy value then none
  else
    match value with
    | Cell.num v =>
      match ssfParse v with
      | some d =>
        some (toString d.y ++ "-" ++ pad2 d.m ++ "-" ++ pad2 d.d,
          pad2 d.H ++ ":" ++ pad2 d.M)
      | none => none
    | Cell.str s =>
      match jsParse s with
      | some d => some (d.isoDate, pad2 d.hours ++ ":" ++ pad2 d.minutes)
      | none => none
    | Cell.undef => none

/-- One entry of BulkUploadGamesDialog's preview. -/
structure ParsedGame where
  opponent : String
  location : String
  date : String
  time : String
  valid : Bool
  error : Option String
deriving DecidableEq, Repr

/-- The per-row mapping inside `handleFileUpload`: tolerant multi-case
column lookup for opponent/location, date/time from a combined column or
separate ones (time defaulting to "18:00"), a parsed date-only value
keeping the default time when the parsed time is "00:00", and validity
errors for missing opponent, location or date. -/
def parseRow (jsParse : String → Option JsDate)
    (ssfParse : ℚ → Option SSFDate) (row : Row) : ParsedGame :=
  let opponent := jsOr (rowGet row "opponent") (jsOr (rowGet row "Opponent")
    (jsOr (rowGet row "OPPONENT") (Cell.str "")))
  let location := jsOr (rowGet row "location") (jsOr (rowGet row "Location")
    (jsOr (rowGet row "LOCATION") (Cell.str "")))
  let dateValue := jsOr (rowGet row "date") (jsOr (rowGet row "Date")
    (jsOr (rowGet row "DATE") (jsOr (rowGet row "game_date")
      (jsOr (rowGet row "GameDate") (Cell.str "")))))
  let timeValue := jsOr (rowGet row "time") (jsOr (rowGet row "Time")
    (jsOr (rowGet row "TIME") (jsOr (rowGet row "game_time")
      (jsOr (rowGet row "GameTime") (Cell.str "18:00")))))
  let dateTimeValue := jsOr (rowGet row "datetime") (jsOr (rowGet row "DateTime")
    (jsOr (rowGet row "DATETIME") (jsOr (rowGet row "game_datetime")
      (Cell.str ""))))
  let parsedPair : Cell × Cell :=
    if cellTruthy dateTimeValue then
      match parseExcelDate jsParse ssfParse dateTimeValue with
      | some p => (Cell.str p.1, Cell.str p.2)
      | none => (dateValue, timeValue)
    else if cellTruthy dateValue then
      match parseExcelDate jsParse ssfParse dateValue with
      | some p =>
        (Cell.str p.1, if p.2 != "00:00" then Cell.str p.2 else timeValue)
      | none => (dateValue, timeValue)
    else
      (dateValue, timeValue)
  let parsedDate := parsedPair.1
  let parsedTime := parsedPair.2
  let errors : List String :=
    (if ¬cellTruthy opponent then ["Missing opponent"] else [])
      ++ (if ¬cellTruthy location then ["Missing location"] else [])
      ++ (if ¬cellTruthy parsedDate then ["Missing/invalid date"] else [])
  { opponent := jsTrim (cellToString opponent)
    location := jsTrim (cellToString location)
    date := cellToString parsedDate
    time := if cellToString parsedTime == "" then "18:00" else cellToString parsedTime
    valid := errors.length == 0
    error := if errors.length > 0 then some (String.intercalate ", " errors) else none }

/-- The whole preview `parsedGames` produced by `handleFileUpload`. -/
def parseSheet (jsParse : String → Option JsDate)
    (ssfParse : ℚ → Option SSFDate) (rows : List Row) : List ParsedGame :=
  rows.map (parseRow jsParse ssfParse)

/-- `handleSubmit` of BulkUploadGamesDialog keeps only the valid rows for
game creation: `parsedGames.filter(g => g.valid)`. -/
def validRows (parsed : List ParsedGame) : List ParsedGame :=
  parsed.filter fun g => g.valid

/-- Distance function for two games at the same venue: the haversine of an
equal coordinate pair is 0. -/
def dist0 : ℚ → ℚ → ℚ → ℚ → ℚ := fun _ _ _ _ => 0

/-- Distance function realizing the spec's "distance(L1,L2) = 30 units". -/
def dist30 : ℚ → ℚ → ℚ → ℚ → ℚ := fun _ _ _ _ => 30

/-- A pending, never-assigned game scheduled at time 0. -/
def gPending : Game :=
  ⟨"g1", "coach1", 0, "Field 3", "Tigers", GameStatus.pending, none, none, none⟩

/-- The same game after a provider accepted it. -/
def gAssigned : Game :=
  ⟨"g1", "coach1", 0, "Field 3", "Tigers", GameStatus.assigned, some "ump1", none, none⟩

/-- The same game once completed. -/
def gCompleted : Game :=
  ⟨"g1", "coach1", 0, "Field 3", "Tigers", GameStatus.completed, some "ump1", none, none⟩

/-- An existing assignment of umpire `ump1` at venue (10, 10), time 0. -/
def gSameVenue : Game :=
  ⟨"e1", "coach1", 0, "L1", "Lions", GameStatus.assigned, some "ump1", some 10, some 10⟩

/-- An existing assignment at venue (1, 1), time 0. -/
def gL1 : Game :=
  ⟨"e1", "coach1", 0, "L1", "Lions", GameStatus.assigned, some "ump1", some 1, some 1⟩

/-- An available game whose latitude is exactly 0. -/
def gZeroLat : Game :=
  ⟨"z1", "coach1", 0, "Equator Field", "Zebras", GameStatus.pending, none, some 0, some 7⟩

/-- An external umpire lead recorded by the pending-lapsed wizard. -/
def lead0 : LeadRow := ⟨"g1", "coach1", "John Doe", none, "referral", none⟩

/-- Store holding only the pending game. -/
def sPending : Store := ⟨[gPending], [], [], []⟩

/-- Store holding only the assigned game. -/
def sAssigned : Store := ⟨[gAssigned], [], [], []⟩

/-- Store holding only the completed game. -/
def sCompleted : Store := ⟨[gCompleted], [], [], []⟩

/-- A rating with score 4 created at time 0 for game `g1` by `coach1`. -/
def rRated : RatingRow := ⟨"r1", "g1", "coach1", "ump1", 4, none, 0⟩

/-- Store with the completed game and its existing rating. -/
def sRated : Store := ⟨[gCompleted], [], [rRated], []⟩

/-- The `new Date(string)` behavior of a UTC runtime at the one input the
bulk-import claims exercise: a date-only ISO string parses to that date
at local time 00:00. -/
def jsParseUTC : String → Option JsDate := fun s =>
  if s == "2025-06-01" then some ⟨"2025-06-01", 0, 0⟩ else none

/-- Excel serial-date decoder instance that the string-only claims never
reach. -/
def ssfParseNone : ℚ → Option SSFDate := fun _ => none

/-- A bulk-import row with opponent, location and a date, but no time. -/
def rowTigers : Row :=
  [("opponent", Cell.str "Tigers"), ("location", Cell.str "Field 3"),
    ("date", Cell.str "2025-06-01")]

/-- A bulk-import row missing the opponent column. -/
def rowNoOpponent : Row :=
  [("location", Cell.str "Field 3"), ("date", Cell.str "2025-06-01")]

/-- The uniqueness constraint `UNIQUE(game_id, coach_id)` of the ratings
table, as a predicate on the stored list. -/
def atMostOnePerPair (l : List RatingRow) : Prop :=
  l.Pairwise fun a b => ¬(a.game_id = b.game_id ∧ a.coach_id = b.coach_id)

theorem listMap_id_of_fixed {α : Type} (f : α → α) (l : List α)
    (h : ∀ a ∈ l, f a = a) : l.map f = l := by
  induction l with
  | nil => rfl
  | cons a l ih =>
    simp only [List.map_cons]
    rw [h a (List.mem_cons_self a l), ih fun b hb => h b (List.mem_cons_of_mem a hb)]

theorem insertRating_fst_games (s : Store) (uid : String) (row : RatingRow) :
    ((insertRating s uid row).1).games = s.games := by
  unfold insertRating
  split_ifs <;> rfl

/-- C3: the spec reserves score 0 as the no-show sentinel, exempt from the
positivity validation of scores 1–5, and the reconciliation no-show branch
does insert a rating of 0 — but the ratings table of migration
20251118032938 enforces `CHECK (rating >= 1 AND rating <= 5)`, so the
store rejects the score-0 insert with a check violation instead of
accepting it: evaluating the embedded store at the failing input shows
the rejection. -/
theorem c3_no_show_rating_rejected_by_store :
    insertRating sCompleted "coach1" ⟨"r1", "g1", "coach1", "ump1", 0, none, 5⟩
      = (sCompleted, some ⟨"23514"⟩) := by
  decide

/-- C6: at 23 h 59 m after creation the edit gate `canEditRating` admits
the edit and the dialog reports success, yet the store is unchanged (the
migrations define no UPDATE policy on `ratings`, so the update matches
zero rows — the stored score stays 4 instead of becoming 5); at 24 h 01 m
the edit affordance is withheld.  The claim's "succeeds and stores" at
23 h 59 m is therefore violated by the code at this input. -/
theorem c6_edit_window_silent_update :
    coachEditRating sRated 86340000 rRated 5 none
        = (sRated, EditOutcome.reportedSuccess)
      ∧ coachEditRating sRated 86460000 rRated 5 none
        = (sRated, EditOutcome.notEditable) := by
  decide

/-- C2 counterexample: an existing assignment at the same venue
(haversine distance 0) only 90 minutes away is not flagged as a conflict,
although 90 minutes is below the 2-hour same-slot threshold — the
travel-time relaxation applies inside the window, so the claim "any pair
within the window conflicts regardless of location" is false. -/
theorem c2_counterexample_same_venue_90min :
    (((5400000 : ℤ) - gSameVenue.game_date).natAbs : ℤ) < twoHours
      ∧ checkDoubleBooking dist0 5400000 (some 10) (some 10) [gSameVenue] = false := by
  constructor
  · decide
  · norm_num [checkDoubleBooking, conflictsWith, gSameVenue, dist0, jsTruthy,
      requiredBuffer, twoHours]

/-- C5 counterexample: `ump2` accepts game `g1` that is already assigned
to `ump1`: the RLS-guarded update matches no row, supabase raises no
error, and the flow reports success — contradicting the claim that the
accept "fails with InvalidTransition … and is not reported to the
accepting provider as a success". -/
theorem c5_counterexample_accept_assigned_reports_success :
    handleAcceptGame dist0 sAssigned "ump2" "g1" 5400000 none none
      = (sAssigned, AcceptOutcome.success) := by
  decide

/-- C1 counterexample: a store satisfying the biconditional invariant, on
which the external-resolution branch completes the never-assigned pending
game `g1`; the resulting game is `completed` with no assigned provider,
so the biconditional invariant is not preserved. -/
theorem c1_counterexample_external_resolution_breaks_iff :
    (∀ g ∈ sPending.games, providerIffStatus g)
      ∧ ¬(∀ g ∈ (applyOp dist0
          (CoreOp.resolvePending "coach1" "g1" 1 true lead0) sPending).games,
          providerIffStatus g) := by
  decide

/-- C4 counterexample: confirming a no-show for assigned game `g1` first
marks the game completed and then attempts the score-0 rating insert,
which fails with a check violation (not a duplicate); the operation
reports failure while the game's stored status has already changed to
`completed` — contradicting both the claimed rating-first order and the
claimed atomicity. -/
theorem c4_counterexample_not_atomic :
    handleConfirmAndRate sAssigned "coach1" "g1" "ump1" true 0 none "r1" 9
      = (⟨[gCompleted], [], [], []⟩, ConfirmOutcome.failed "23514") := by
  decide

/-- C2 (amended): within the 2-hour same-slot window, `checkDoubleBooking`
decides conflict whenever at least one of the two games lacks truthy
coordinates; when both carry truthy coordinates it decides conflict
exactly when the time delta is below the travel-time-plus-one-hour
required buffer — so a coordinate-carrying pair inside the window whose
delta meets the buffer is not flagged. -/
theorem c2_within_window_conflict_rule :
    (∀ (dist : ℚ → ℚ → ℚ → ℚ → ℚ) (t : ℤ) (cLat cLng : Option ℚ)
      (games : List Game) (g : Game), g ∈ games →
      (((t - g.game_date).natAbs : ℤ)) < twoHours →
      (jsTruthy cLat && jsTruthy cLng
        && jsTruthy g.latitude && jsTruthy g.longitude) = false →
      checkDoubleBooking dist t cLat cLng games = true)
    ∧ (∀ (dist : ℚ → ℚ → ℚ → ℚ → ℚ) (t : ℤ) (cLat cLng : Option ℚ)
      (games : List Game) (g : Game), g ∈ games →
      (((t - g.game_date).natAbs : ℤ)) < twoHours →
      (jsTruthy cLat && jsTruthy cLng
        && jsTruthy g.latitude && jsTruthy g.longitude) = true →
      ((((t - g.game_date).natAbs : ℤ)) : ℚ) < requiredBuffer
        (dist (cLat.getD 0) (cLng.getD 0) (g.latitude.getD 0) (g.longitude.getD 0)) →
      checkDoubleBooking dist t cLat cLng games = true)
    ∧ (∀ (dist : ℚ → ℚ → ℚ → ℚ → ℚ) (t : ℤ) (cLat cLng : Option ℚ) (g : Game),
      (((t - g.game_date).natAbs : ℤ)) < twoHours →
      (jsTruthy cLat && jsTruthy cLng
        && jsTruthy g.latitude && jsTruthy g.longitude) = true →
      requiredBuffer
        (dist (cLat.getD 0) (cLng.getD 0) (g.latitude.getD 0) (g.longitude.getD 0))
        ≤ ((((t - g.game_date).natAbs : ℤ)) : ℚ) →
      checkDoubleBooking dist t cLat cLng [g] = false) := by
  refine ⟨?_, ?_, ?_⟩
  · intro dist t cLat cLng games g hg hΔ hcoords
    refine List.any_eq_true.mpr ⟨g, hg, ?_⟩
    simp only [conflictsWith]
    rw [if_pos hΔ, hcoords]
    simp
  · intro dist t cLat cLng games g hg hΔ hcoords hbuf
    refine List.any_eq_true.mpr ⟨g, hg, ?_⟩
    simp only [conflictsWith]
    rw [if_pos hΔ, hcoords]
    simpa using hbuf
  · intro dist t cLat cLng g hΔ hcoords hbuf
    simp only [checkDoubleBooking, List.any_cons, List.any_nil, Bool.or_false]
    simp only [conflictsWith]
    rw [if_pos hΔ, hcoords]
    simpa using not_lt.mpr hbuf

/-- C2 witness: a coordinate-free pair 60 minutes apart conflicts; a
same-venue pair 50 minutes apart conflicts (50 min below the 60-minute
zero-distance buffer); a same-venue pair 90 minutes apart does not. -/
theorem c2_within_window_conflict_rule_witness :
    checkDoubleBooking dist30 3600000 none none [gPending] = true
    ∧ checkDoubleBooking dist0 3000000 (some 10) (some 10) [gSameVenue] = true
    ∧ checkDoubleBooking dist0 5400000 (some 10) (some 10) [gSameVenue] = false :=
  ⟨c2_within_window_conflict_rule.1 dist30 3600000 none none [gPending] gPending
      (List.mem_singleton.mpr rfl) (by decide) (by decide),
    c2_within_window_conflict_rule.2.1 dist0 3000000 (some 10) (some 10)
      [gSameVenue] gSameVenue (List.mem_singleton.mpr rfl) (by decide) (by decide)
      (by norm_num [gSameVenue, dist0, requiredBuffer]),
    c2_within_window_conflict_rule.2.2 dist0 5400000 (some 10) (some 10)
      gSameVenue (by decide) (by decide)
      (by norm_num [gSameVenue, dist0, requiredBuffer])⟩

/-- C8: with an existing assignment at time `t` whose coordinates are
truthy and a candidate with nonzero coordinates at distance 30 units, a
candidate 3 hours away does not conflict, and a candidate 1 h 30 m away
does (travel time 60 min plus the 60-minute buffer yields a 120-minute
required gap exceeding the 90-minute delta). -/
theorem c8_distance_30_examples
    (dist : ℚ → ℚ → ℚ → ℚ → ℚ) (t : ℤ) (cLat cLng : ℚ) (g : Game)
    (hc1 : cLat ≠ 0) (hc2 : cLng ≠ 0)
    (hg1 : jsTruthy g.latitude = true) (hg2 : jsTruthy g.longitude = true)
    (hgd : g.game_date = t)
    (hd : dist cLat cLng (g.latitude.getD 0) (g.longitude.getD 0) = 30) :
    checkDoubleBooking dist (t + 3 * 3600000) (some cLat) (some cLng) [g] = false
    ∧ checkDoubleBooking dist (t + 90 * 60000) (some cLat) (some cLng) [g] = true := by
  have hdelta3 : ((t + 3 * 3600000 - g.game_date).natAbs : ℤ) = 10800000 := by
    rw [hgd]
    norm_num
  have hdelta90 : ((t + 90 * 60000 - g.game_date).natAbs : ℤ) = 5400000 := by
    rw [hgd]
    norm_num
  have hcl : jsTruthy (some cLat) = true := by simp [jsTruthy, hc1]
  have hcn : jsTruthy (some cLng) = true := by simp [jsTruthy, hc2]
  have hcoords : (jsTruthy (some cLat) && jsTruthy (some cLng)
      && jsTruthy g.latitude && jsTruthy g.longitude) = true := by
    rw [hcl, hcn, hg1, hg2]
    rfl
  constructor
  · simp only [checkDoubleBooking, List.any_cons, List.any_nil, Bool.or_false]
    simp only [conflictsWith, hdelta3]
    rw [if_neg (by norm_num [twoHours])]
  · simp only [checkDoubleBooking, List.any_cons, List.any_nil, Bool.or_false]
    simp only [conflictsWith, hdelta90]
    rw [if_pos (by norm_num [twoHours]), hcoords]
    simp only [Option.getD_some, hd]
    norm_num [requiredBuffer]

/-- C8 witness: concrete instance at `t = 0`, candidate coordinates
(1, 1), existing game `gL1`, and the constant distance function 30. -/
theorem c8_distance_30_examples_witness :
    checkDoubleBooking dist30 (0 + 3 * 3600000) (some 1) (some 1) [gL1] = false
    ∧ checkDoubleBooking dist30 (0 + 90 * 60000) (some 1) (some 1) [gL1] = true :=
  c8_distance_30_examples dist30 0 1 1 gL1 (by norm_num) (by norm_num)
    (by decide) (by decide) rfl rfl

/-- C10: a coordinate equal to exactly 0 — on the game or on the
provider's home location — is treated as absent: the distance filter
retains the game regardless of the maximum-distance cap, and the conflict
check for such a pair degenerates to the pure 2-hour time-delta rule with
no travel-time relaxation. -/
theorem c10_zero_coordinates_treated_as_absent :
    (∀ (dist : ℚ → ℚ → ℚ → ℚ → ℚ) (userLat userLng : Option ℚ) (maxDistance : ℚ)
      (games : List Game) (g : Game), g ∈ games →
      (g.latitude = some 0 ∨ g.longitude = some 0
        ∨ userLat = some 0 ∨ userLng = some 0) →
      g ∈ filteredGames dist userLat userLng maxDistance games)
    ∧ (∀ (dist : ℚ → ℚ → ℚ → ℚ → ℚ) (t : ℤ) (cLat cLng : Option ℚ) (g : Game),
      (cLat = some 0 ∨ cLng = some 0
        ∨ g.latitude = some 0 ∨ g.longitude = some 0) →
      checkDoubleBooking dist t cLat cLng [g]
        = decide ((((t - g.game_date).natAbs : ℤ)) < twoHours)) := by
  constructor
  · intro dist userLat userLng maxDistance games g hg hzero
    simp only [filteredGames, List.mem_filter]
    refine ⟨hg, ?_⟩
    rcases hzero with h | h | h | h <;> simp [jsTruthy, h]
  · intro dist t cLat cLng g hzero
    simp only [checkDoubleBooking, List.any_cons, List.any_nil, Bool.or_false]
    simp only [conflictsWith]
    by_cases hΔ : (((t - g.game_date).natAbs : ℤ)) < twoHours
    · have hΔa : |t - g.game_date| < twoHours := by
        rwa [Int.natCast_natAbs] at hΔ
      rw [if_pos hΔ]
      rcases hzero with h | h | h | h <;> simp [jsTruthy, h, hΔa]
    · have hΔa : ¬|t - g.game_date| < twoHours := by
        rwa [Int.natCast_natAbs] at hΔ
      rw [if_neg hΔ]
      simp [hΔa]

/-- C10 witness: the game `gZeroLat` (latitude exactly 0) is retained by
the distance filter under a 5-mile cap, and a candidate against it is
judged by the time delta alone. -/
theorem c10_zero_coordinates_treated_as_absent_witness :
    gZeroLat ∈ filteredGames dist30 (some 1) (some 1) 5 [gZeroLat]
    ∧ checkDoubleBooking dist30 7000000 (some 1) (some 1) [gZeroLat]
      = decide ((((7000000 - gZeroLat.game_date).natAbs : ℤ)) < twoHours) :=
  ⟨c10_zero_coordinates_treated_as_absent.1 dist30 (some 1) (some 1) 5
      [gZeroLat] gZeroLat (List.mem_singleton.mpr rfl) (Or.inl rfl),
    c10_zero_coordinates_treated_as_absent.2 dist30 7000000 (some 1) (some 1)
      gZeroLat (Or.inr (Or.inr (Or.inl rfl)))⟩

/-- C5 (amended): an accept attempted on a game that is not
pending-and-unassigned performs a conditional update that matches no row:
the store is left unchanged (so no double-assignment occurs), but no
`InvalidTransition`-style error is raised — whenever the conflict check
passes, the accept is reported to the provider as a success. -/
theorem c5_accept_non_pending_silent
    (dist : ℚ → ℚ → ℚ → ℚ → ℚ) (s : Store) (uid gameId : String)
    (d : ℤ) (la ln : Option ℚ)
    (h : ∀ g ∈ s.games, g.id = gameId →
      ¬(g.status = GameStatus.pending ∧ g.assigned_umpire_id = none)) :
    (handleAcceptGame dist s uid gameId d la ln).1 = s
    ∧ (checkDoubleBooking dist d la ln (myGamesOf s uid) = false →
        (handleAcceptGame dist s uid gameId d la ln).2 = AcceptOutcome.success) := by
  have hmap : s.games.map (fun g =>
      if g.id == gameId && acceptGuard g then
        { g with assigned_umpire_id := some uid, status := GameStatus.assigned }
      else g) = s.games := by
    apply listMap_id_of_fixed
    intro a ha
    by_cases hid : a.id = gameId
    · have hng := h a ha hid
      have hguard : acceptGuard a = false := by
        cases hag : acceptGuard a
        · rfl
        · exfalso
          apply hng
          simp only [acceptGuard, Bool.and_eq_true, beq_iff_eq] at hag
          exact ⟨hag.2, hag.1⟩
      rw [hguard]
      simp
    · have hid' : (a.id == gameId) = false := beq_eq_false_iff_ne.mpr hid
      rw [hid']
      simp
  by_cases hc : checkDoubleBooking dist d la ln (myGamesOf s uid) = true
  · constructor
    · simp [handleAcceptGame, hc]
    · intro hfalse
      rw [hfalse] at hc
      exact absurd hc (by simp)
  · have hc' : checkDoubleBooking dist d la ln (myGamesOf s uid) = false :=
      Bool.eq_false_iff.mpr (fun hcontra => hc hcontra)
    constructor
    · simp only [handleAcceptGame, hc']
      simp only [Bool.false_eq_true, if_false]
      unfold rlsAcceptUpdate
      rw [hmap]
    · intro _
      simp [handleAcceptGame, hc']

/-- C5 witness: `ump3` accepts the already-assigned game of `sAssigned`;
the store is unchanged and, the conflict check passing, the outcome is
the success toast. -/
theorem c5_accept_non_pending_silent_witness :
    (handleAcceptGame dist0 sAssigned "ump3" "g1" 0 none none).1 = sAssigned
    ∧ (checkDoubleBooking dist0 0 none none (myGamesOf sAssigned "ump3") = false →
        (handleAcceptGame dist0 sAssigned "ump3" "g1" 0 none none).2
          = AcceptOutcome.success) :=
  c5_accept_non_pending_silent dist0 sAssigned "ump3" "g1" 0 none none (by decide)

/-- C4 (amended): each confirm outcome of the assigned-and-lapsed branch
marks the game completed first and then submits the Rating; consequently
— whether the rating insert succeeds, hits a swallowed duplicate, or
fails for any other reason — every game row matching the confirmed game
id and the acting coach ends with status `completed` (the operation is
not atomic per game). -/
theorem c4_confirm_marks_completed_regardless
    (s : Store) (uid gameId umpId : String) (noShow : Bool) (rating : ℤ)
    (comment : Option String) (newId : String) (now : ℤ)
    (hguard : noShow = true ∨ rating ≠ 0) (g : Game)
    (hg : g ∈ ((handleConfirmAndRate s uid gameId umpId noShow rating
      comment newId now).1).games)
    (hid : g.id = gameId) (hco : g.coach_id = uid) :
    g.status = GameStatus.completed := by
  have hcond : (!noShow && rating == 0) = false := by
    rcases hguard with h | h
    · rw [h]
      rfl
    · rw [beq_eq_false_iff_ne.mpr h]
      simp
  rw [handleConfirmAndRate] at hg
  rw [hcond] at hg
  simp only [Bool.false_eq_true, if_false] at hg
  rcases hins : insertRating (coachSetStatus s uid gameId GameStatus.completed) uid
      ⟨newId, gameId, uid, umpId, if noShow then 0 else rating, comment, now⟩
    with ⟨s2, err⟩
  rw [hins] at hg
  have hgames : s2.games = (coachSetStatus s uid gameId GameStatus.completed).games := by
    have := insertRating_fst_games (coachSetStatus s uid gameId GameStatus.completed)
      uid ⟨newId, gameId, uid, umpId, if noShow then 0 else rating, comment, now⟩
    rw [hins] at this
    exact this
  have hg2 : g ∈ s2.games := by
    cases err with
    | none =>
      dsimp only at hg
      exact hg
    | some e =>
      dsimp only at hg
      by_cases he : (e.code == "23505") = true
      · rw [if_pos he] at hg
        exact hg
      · rw [if_neg he] at hg
        exact hg
  rw [hgames] at hg2
  simp only [coachSetStatus] at hg2
  rcases List.mem_map.mp hg2 with ⟨a, ha, rfl⟩
  by_cases hcond2 : (a.id == gameId && a.coach_id == uid) = true
  · rw [if_pos hcond2]
  · exfalso
    rw [if_neg hcond2] at hid hco
    apply hcond2
    simp [hid, hco]

/-- C4 witness: the concrete no-show confirmation of `sAssigned`'s game
leaves it completed. -/
theorem c4_confirm_marks_completed_regardless_witness :
    gCompleted.status = GameStatus.completed :=
  c4_confirm_marks_completed_regardless sAssigned "coach1" "g1" "ump1" true 0
    none "r1" 9 (Or.inl rfl) gCompleted (by decide) rfl rfl

theorem fwdInv_map {f : Game → Game} {l : List Game}
    (h : ∀ a ∈ l, providerImpliesStatus a)
    (hf : ∀ a ∈ l, providerImpliesStatus a → providerImpliesStatus (f a)) :
    ∀ g ∈ l.map f, providerImpliesStatus g := by
  intro g hg
  rcases List.mem_map.mp hg with ⟨a, ha, rfl⟩
  exact hf a ha (h a ha)

/-- C1 (amended): every core operation — create, accept, the
assigned-and-lapsed confirm branch, and both outcomes of the
pending-and-lapsed external-resolution branch — preserves the direction
of the invariant the code maintains: a set assigned provider implies
status `assigned` or `completed`.  (The biconditional of the claim fails:
see the counterexample, where the external-resolution branch completes a
game whose provider was never set.) -/
theorem c1_core_ops_preserve_provider_implies_status
    (dist : ℚ → ℚ → ℚ → ℚ → ℚ) (op : CoreOp) (s : Store)
    (h : storeFwdInv s) : storeFwdInv (applyOp dist op s) := by
  cases op with
  | create uid newId date loc opp =>
    intro g hg
    simp only [applyOp, createGame] at hg
    rcases List.mem_append.mp hg with hmem | hmem
    · exact h g hmem
    · rcases List.mem_singleton.mp hmem with rfl
      intro hne
      simp at hne
  | accept uid gameId d la ln =>
    intro g hg
    simp only [applyOp, handleAcceptGame] at hg
    by_cases hc : checkDoubleBooking dist d la ln (myGamesOf s uid) = true
    · rw [if_pos hc] at hg
      exact h g hg
    · rw [if_neg hc] at hg
      simp only [rlsAcceptUpdate] at hg
      refine fwdInv_map h ?_ g hg
      intro a _ hinv
      by_cases hcond : (a.id == gameId && acceptGuard a) = true
      · rw [if_pos hcond]
        intro _
        exact Or.inl rfl
      · rw [if_neg hcond]
        exact hinv
  | confirmRate uid gid umid ns r c i n =>
    intro g hg
    simp only [applyOp] at hg
    rw [handleConfirmAndRate] at hg
    by_cases hguard : (!ns && r == 0) = true
    · rw [if_pos hguard] at hg
      exact h g hg
    · rw [if_neg hguard] at hg
      dsimp only at hg
      rcases hins : insertRating (coachSetStatus s uid gid GameStatus.completed) uid
          ⟨i, gid, uid, umid, if ns then 0 else r, c, n⟩
        with ⟨s2, err⟩
      rw [hins] at hg
      have hgames : s2.games
          = (coachSetStatus s uid gid GameStatus.completed).games := by
        have := insertRating_fst_games
          (coachSetStatus s uid gid GameStatus.completed) uid
          ⟨i, gid, uid, umid, if ns then 0 else r, c, n⟩
        rw [hins] at this
        exact this
      have hg2 : g ∈ s2.games := by
        cases err with
        | none =>
          dsimp only at hg
          exact hg
        | some e =>
          dsimp only at hg
          by_cases he : (e.code == "23505") = true
          · rw [if_pos he] at hg
            exact hg
          · rw [if_neg he] at hg
            exact hg
      rw [hgames] at hg2
      simp only [coachSetStatus] at hg2
      refine fwdInv_map h ?_ g hg2
      intro a _ hinv
      by_cases hcond : (a.id == gid && a.coach_id == uid) = true
      · rw [if_pos hcond]
        intro _
        exact Or.inr rfl
      · rw [if_neg hcond]
        exact hinv
  | resolvePending uid gid now p lead =>
    intro g hg
    simp only [applyOp, resolvePastPending] at hg
    have hbody : ∀ (st : GameStatus), g ∈ (s.games.map fun a =>
        if a.id == gid && a.coach_id == uid
            && a.status == GameStatus.pending
            && a.assigned_umpire_id == none
            && decide (a.game_date < now) then
          { a with status := st }
        else a) → providerImpliesStatus g := by
      intro st hmem
      refine fwdInv_map h ?_ g hmem
      intro a _ hinv
      by_cases hcond : (a.id == gid && a.coach_id == uid
          && a.status == GameStatus.pending
          && a.assigned_umpire_id == none
          && decide (a.game_date < now)) = true
      · rw [if_pos hcond]
        simp only [Bool.and_eq_true, beq_iff_eq] at hcond
        intro hne
        exact absurd hcond.1.2 hne
      · rw [if_neg hcond]
        exact hinv
    cases p with
    | true =>
      simp only [if_pos rfl] at hg
      exact hbody GameStatus.completed hg
    | false =>
      simp only [Bool.false_eq_true, if_false] at hg
      exact hbody GameStatus.cancelled hg

/-- C1 witness: the forward invariant holds after an accept on the store
holding the pending game. -/
theorem c1_core_ops_preserve_provider_implies_status_witness :
    storeFwdInv (applyOp dist0
      (CoreOp.accept "ump1" "g1" 0 none none) sPending) :=
  c1_core_ops_preserve_provider_implies_status dist0
    (CoreOp.accept "ump1" "g1" 0 none none) sPending
    (by
      intro g hg
      simp only [sPending] at hg
      rcases List.mem_singleton.mp hg with rfl
      intro hne
      simp [gPending] at hne)

/-- C7: a second rating submit for a (game, requester) pair that already
has a stored rating fails with the `DuplicateRating` toast (unique
violation 23505) leaving the store unchanged, and every insert into the
ratings store preserves the at-most-one-rating-per-(game, coach)
invariant of the `UNIQUE(game_id, coach_id)` constraint. -/
theorem c7_duplicate_rating_unique :
    (∀ (s : Store) (uid gameId u : String) (rating : ℤ)
      (comment : Option String) (newId : String) (now : ℤ),
      rating ≠ 0 → 1 ≤ rating → rating ≤ 5 →
      (s.games.any fun g => g.id == gameId && g.coach_id == uid
        && g.status == GameStatus.completed) = true →
      (s.ratings.any fun r => r.game_id == gameId && r.coach_id == uid) = true →
      rateUmpireSubmit s uid gameId (some u) rating comment newId now
        = (s, SubmitOutcome.duplicate))
    ∧ (∀ (s : Store) (uid : String) (row : RatingRow),
      atMostOnePerPair s.ratings →
      atMostOnePerPair ((insertRating s uid row).1).ratings) := by
  constructor
  · intro s uid gameId u rating comment newId now hne h1 h5 hgame hdup
    have hins : insertRating s uid ⟨newId, gameId, uid, u, rating, comment, now⟩
        = (s, some ⟨"23505"⟩) := by
      unfold insertRating
      rw [if_neg, if_neg, if_pos]
      · exact hgame.symm ▸ hdup
      · intro hrange
        exact absurd ⟨h1, h5⟩ hrange
      · intro hnall
        exact hnall ⟨rfl, hgame⟩
    unfold rateUmpireSubmit
    rw [beq_eq_false_iff_ne.mpr hne]
    simp only [Bool.false_eq_true, if_false]
    rw [hins]
    rfl
  · intro s uid row hpw
    unfold atMostOnePerPair at hpw ⊢
    unfold insertRating
    by_cases hA : uid = row.coach_id ∧ (s.games.any fun g =>
        g.id == row.game_id && g.coach_id == uid
          && g.status == GameStatus.completed) = true
    · rw [if_neg (not_not_intro hA)]
      by_cases hB : 1 ≤ row.rating ∧ row.rating ≤ 5
      · rw [if_neg (not_not_intro hB)]
        by_cases hC : (s.ratings.any fun r =>
            r.game_id == row.game_id && r.coach_id == row.coach_id) = true
        · rw [if_pos hC]
          exact hpw
        · rw [if_neg hC]
          dsimp only
          rw [List.pairwise_append]
          refine ⟨hpw, List.pairwise_singleton _ _, ?_⟩
          intro a ha b hb
          rcases List.mem_singleton.mp hb with rfl
          rintro ⟨hga, hca⟩
          apply hC
          refine List.any_eq_true.mpr ⟨a, ha, ?_⟩
          simp [hga, hca]
      · rw [if_pos hB]
        exact hpw
    · rw [if_pos hA]
      exact hpw

/-- C7 witness: the second submit for game `g1` by `coach1` on `sRated`
returns the duplicate outcome with the store unchanged, and the insert
preserves uniqueness. -/
theorem c7_duplicate_rating_unique_witness :
    rateUmpireSubmit sRated "coach1" "g1" (some "ump1") 4 none "r2" 9
      = (sRated, SubmitOutcome.duplicate)
    ∧ atMostOnePerPair ((insertRating sRated "coach1"
        ⟨"r2", "g1", "coach1", "ump1", 4, none, 9⟩).1).ratings :=
  ⟨c7_duplicate_rating_unique.1 sRated "coach1" "g1" "ump1" 4 none "r2" 9
      (by decide) (by decide) (by decide) (by decide) (by decide),
    c7_duplicate_rating_unique.2 sRated "coach1"
      ⟨"r2", "g1", "coach1", "ump1", 4, none, 9⟩
      (by simp [atMostOnePerPair, sRated])⟩

/-- C9: for any runtime whose `new Date` parses "2025-06-01" to that ISO
date at local midnight, the row with opponent "Tigers", location
"Field 3" and date "2025-06-01" but no time is classified valid with time
defaulted to "18:00"; the row missing the opponent column is classified
invalid with error text "Missing opponent", is retained in the preview,
and is excluded from the rows submitted for game creation. -/
theorem c9_bulk_import_row_validation
    (jsParse : String → Option JsDate) (ssfParse : ℚ → Option SSFDate)
    (h : jsParse "2025-06-01" = some ⟨"2025-06-01", 0, 0⟩) :
    parseRow jsParse ssfParse rowTigers
      = ⟨"Tigers", "Field 3", "2025-06-01", "18:00", true, none⟩
    ∧ (parseRow jsParse ssfParse rowNoOpponent).valid = false
    ∧ (parseRow jsParse ssfParse rowNoOpponent).error = some "Missing opponent"
    ∧ parseRow jsParse ssfParse rowNoOpponent
        ∈ parseSheet jsParse ssfParse [rowTigers, rowNoOpponent]
    ∧ parseRow jsParse ssfParse rowNoOpponent
        ∉ validRows (parseSheet jsParse ssfParse [rowTigers, rowNoOpponent]) := by
  have h2 : parseRow jsParse ssfParse rowNoOpponent
      = ⟨"", "Field 3", "2025-06-01", "18:00", false, some "Missing opponent"⟩ := by
    simp [parseRow, rowNoOpponent, rowGet, jsOr, cellTruthy, cellToString,
      parseExcelDate, pad2, h]
    decide
  refine ⟨?_, ?_, ?_, ?_, ?_⟩
  · simp [parseRow, rowTigers, rowGet, jsOr, cellTruthy, cellToString,
      parseExcelDate, pad2, h]
    decide
  · rw [h2]
  · rw [h2]
  · simp [parseSheet]
  · rw [h2]
    simp only [validRows, parseSheet, List.map_cons, List.map_nil, h2]
    simp [List.mem_filter]

/-- C9 witness: the instantiation at the concrete UTC runtime parser. -/
theorem c9_bulk_import_row_validation_witness :
    parseRow jsParseUTC ssfParseNone rowTigers
      = ⟨"Tigers", "Field 3", "2025-06-01", "18:00", true, none⟩
    ∧ (parseRow jsParseUTC ssfParseNone rowNoOpponent).valid = false
    ∧ (parseRow jsParseUTC ssfParseNone rowNoOpponent).error
        = some "Missing opponent"
    ∧ parseRow jsParseUTC ssfParseNone rowNoOpponent
        ∈ parseSheet jsParseUTC ssfParseNone [rowTigers, rowNoOpponent]
    ∧ parseRow jsParseUTC ssfParseNone rowNoOpponent
        ∉ validRows (parseSheet jsParseUTC ssfParseNone [rowTigers, rowNoOpponent]) :=
  c9_bulk_import_row_validation jsParseUTC ssfParseNone (by decide)

end BaseBoss
